import Mathlib

/-!
Shallow embedding of the headless-document-management-system backend
(TypeScript, Bun/Elysia/drizzle), covering the three-layer error taxonomy
(`RepoError` → `ServiceError` → `HttpError`), the document CRUD service and
the download-token lifecycle, as implemented in the latest revision of the
source (the `RepoError`/`ServiceError`-typed revision of
`document.repository.ts`, `document.service.ts`,
`repository.errors.ts`/`service.errors.ts` and `controller.errors.ts`).

Modelling conventions:
* JavaScript strings are Lean `String`s; `String.prototype.toLowerCase` and
  `String.prototype.includes` are modelled on ASCII characters
  (`Char.toLower` per character, contiguous-sublist containment), which is
  exact for every string the repository manipulates.
* Instants (`new Date().toISOString()` values, compared with `<=` in the
  source) are modelled as `Nat` clock values passed explicitly; the
  source's lexicographic comparison of ISO strings agrees with the numeric
  order of the instants they denote.
* Database tables are in-memory lists inside `DbState`; drizzle queries
  (`select ... where eq ... limit 1`, `update ... returning`, `delete`) are
  translated to `List.find?` / `List.map` / `List.filter` over those lists.
* `Effect` pipelines are translated to explicit state passing.  A typed
  failure (`Effect.fail` / mapped error channel) becomes `Outcome.fail`; a
  JavaScript exception thrown inside a continuation (an Effect defect, e.g.
  a `TypeError` from dereferencing `null`) becomes `Outcome.crash`, which is
  outside the typed error channel exactly as a defect is.
* Fallible collaborators that the claims quantify over (file system
  existence/removal, the mark-used write) are oracle parameters.
-/

/-- JS `String.prototype.toLowerCase`, restricted to ASCII case mapping
(sufficient for every literal compared in the source). -/
def jsToLower (s : String) : String :=
  String.mk (s.data.map Char.toLower)

/-- `needle` occurs at the head of `hay` (helper for substring search). -/
def segPrefix : List Char → List Char → Bool
  | [], _ => true
  | _ :: _, [] => false
  | c :: cs, d :: ds => c == d && segPrefix cs ds

/-- `needle` occurs contiguously somewhere in `hay`. -/
def segIn (needle : List Char) : List Char → Bool
  | [] => needle.isEmpty
  | d :: ds => segPrefix needle (d :: ds) || segIn needle ds

/-- JS `hay.includes(needle)`: substring containment. -/
def jsIncludes (hay needle : String) : Bool :=
  segIn needle.data hay.data

/-- Numeric value of a decimal digit character. -/
def digitVal (c : Char) : Nat := c.toNat - 48

/-- Decimal value of a digit run (JS `parseInt` on a digit string). -/
def parseDigits (l : List Char) : Nat :=
  l.foldl (fun acc c => acc * 10 + digitVal c) 0

/-- The first maximal run of decimal digits in a character list, if any
(JS `str.match(/(\d+)/g)` followed by taking `match[0]`). -/
def firstDigitRun : List Char → Option (List Char)
  | [] => none
  | c :: cs =>
    if c.isDigit then some (c :: cs.takeWhile Char.isDigit)
    else firstDigitRun cs

/-- `parseInt(match[0])` where `match = s.match(/(\d+)/g)`: the value of the
first digit run in `s`, if `s` contains a digit. -/
def firstNumber (s : String) : Option Nat :=
  (firstDigitRun s.data).map parseDigits

/-- Repository-layer error type (`RepoError` in `repository.errors.ts`). -/
inductive RepoError where
  | DbConnectionError (message : String)
  | DbTimeoutError (message : String)
  | DbConstraintViolation (constraint : String) (message : String)
  | DbUnknown (message : String)
  | TokenNotFound (token : String)
  | TokenExpired (token : String)
  deriving DecidableEq

/-- A raw JavaScript failure value as seen by `toRepoError`'s `unknown`
parameter: either an `Error` instance (carrying its `message`) or any other
value (represented by its `String(error)` rendering). -/
inductive RawError where
  | jsError (message : String)
  | nonError (stringValue : String)
  deriving DecidableEq

/-- `toRepoError` from `repository.errors.ts`: classify a raw failure into a
`RepoError` by keyword search over the lowercased message. -/
def toRepoError : RawError → RepoError
  | .jsError errMessage =>
    let message := jsToLower errMessage
    if jsIncludes message "timeout" || jsIncludes message "timed out" then
      .DbTimeoutError errMessage
    else if jsIncludes message "constraint" || jsIncludes message "unique"
        || jsIncludes message "foreign key" then
      .DbConstraintViolation "unknown" errMessage
    else if jsIncludes message "connection" || jsIncludes message "connect" then
      .DbConnectionError errMessage
    else
      .DbUnknown errMessage
  | .nonError stringValue => .DbUnknown stringValue

/-- Service-layer error type (`ServiceError = DomainError | ServiceInfraError`
in `service.errors.ts`). -/
inductive ServiceError where
  | DocumentNotFound (documentId : Nat)
  | FileNotFound (filePath : String)
  | InvalidFileType (message : String)
  | FileTooLarge (maxSize : Nat) (actualSize : Nat)
  | InvalidSearchTags (message : String)
  | DownloadTokenExpired (token : String)
  | DownloadTokenInvalid (token : String)
  | DownloadTokenAlreadyUsed (token : String)
  | ServiceUnavailable (operation : String)
  | ServiceUnknown (operation : String) (message : String)
  deriving DecidableEq

/-- `mapRepoErrorToServiceError` from `service.errors.ts`. -/
def mapRepoErrorToServiceError (repoError : RepoError) (operation : String) :
    ServiceError :=
  match repoError with
  | .TokenNotFound token => .DownloadTokenInvalid token
  | .TokenExpired token => .DownloadTokenExpired token
  | .DbConnectionError _ => .ServiceUnavailable operation
  | .DbTimeoutError _ => .ServiceUnavailable operation
  | .DbConstraintViolation _ message => .ServiceUnknown operation message
  | .DbUnknown message => .ServiceUnknown operation message

/-- Transport-layer error type (`HttpError` in `controller.errors.ts`). -/
inductive HttpError where
  | BadRequest (message : String)
  | NotFound (message : String)
  | Conflict (message : String)
  | Unavailable (message : String)
  | InternalServerError (message : String)
  deriving DecidableEq

/-- `mapServiceErrorToHttpError` from `controller.errors.ts`. -/
def mapServiceErrorToHttpError (serviceError : ServiceError) : HttpError :=
  match serviceError with
  | .DocumentNotFound documentId =>
    .NotFound s!"Document with ID {documentId} not found"
  | .FileNotFound filePath => .NotFound s!"File not found: {filePath}"
  | .InvalidFileType message => .BadRequest message
  | .FileTooLarge maxSize actualSize =>
    .BadRequest s!"File size {actualSize} exceeds maximum {maxSize}"
  | .InvalidSearchTags message => .BadRequest message
  | .DownloadTokenExpired _ => .NotFound "Download token has expired"
  | .DownloadTokenInvalid _ => .NotFound "Invalid download token"
  | .DownloadTokenAlreadyUsed _ =>
    .Conflict "Download token has already been used"
  | .ServiceUnavailable _ => .Unavailable "Service temporarily unavailable"
  | .ServiceUnknown _ message => .InternalServerError message

/-- `httpErrorToStatus` from `controller.errors.ts`. -/
def httpErrorToStatus (error : HttpError) : Nat :=
  match error with
  | .BadRequest _ => 400
  | .NotFound _ => 404
  | .Conflict _ => 409
  | .Unavailable _ => 503
  | .InternalServerError _ => 500

/-- The `operation` strings the service layer actually passes to
`mapRepoErrorToServiceError` in `document.service.ts`. -/
def serviceOperations : List String :=
  ["createDocument", "getAllDocuments", "getDocumentById", "updateDocument",
   "deleteDocument", "searchDocumentsByTags", "generateDownloadLink",
   "downloadDocumentByToken"]

/-- `true` iff the `RepoError` is one of the four infrastructure (DB)
variants, i.e. not a token-validity variant. -/
def RepoError.isDbVariant : RepoError → Bool
  | .DbConnectionError _ => true
  | .DbTimeoutError _ => true
  | .DbConstraintViolation _ _ => true
  | .DbUnknown _ => true
  | .TokenNotFound _ => false
  | .TokenExpired _ => false

/-- `true` iff the `ServiceError` is one of the token-validity domain
errors `DownloadTokenInvalid` / `DownloadTokenExpired`. -/
def ServiceError.isTokenValidityError : ServiceError → Bool
  | .DownloadTokenInvalid _ => true
  | .DownloadTokenExpired _ => true
  | _ => false

/-- A row of the `documents` table (`document.model.ts`).  The
`metadata_tags` text column (JSON written by `JSON.stringify`, read back by
`safeParseJSON<string[]>`) is modelled by its parse result: `none` stands
for both SQL `NULL` and unparseable text, `some tags` for a stored JSON
string-array. -/
structure Document where
  id : Nat
  filename : String
  originalFilename : String
  filePath : String
  fileSize : Nat
  metadataTags : Option (List String)
  createdAt : Nat
  updatedAt : Nat
  deriving DecidableEq

/-- A row of the `download_tokens` table (`download-token.model.ts`).
`usedAt = none` models SQL `NULL` (token not yet consumed). -/
structure DownloadToken where
  id : Nat
  token : String
  documentId : Nat
  expiresAt : Nat
  createdAt : Nat
  usedAt : Option Nat
  deriving DecidableEq

/-- The database state: both tables as lists of rows. -/
structure DbState where
  documents : List Document
  downloadTokens : List DownloadToken
  deriving DecidableEq

/-- `DocumentRepository.findById`: `select … where eq(id) limit 1` then
`rows[0] || null` — absence is data, not an error. -/
def DocumentRepository.findById (s : DbState) (id : Nat) : Option Document :=
  s.documents.find? (fun d => d.id == id)

/-- The partial-update argument of `DocumentRepository.update` (the TS
`{ metadataTags?: string }` object built by the service; `none` means the
field is absent from the object). -/
structure DocumentUpdate where
  metadataTags : Option (List String) := none
  deriving DecidableEq

/-- The row produced by `update(documents).set({ ...data, updatedAt: new
Date().toISOString() })` on a matched row: provided fields overwrite, and
`updatedAt` is always set to the current instant. -/
def applyDocumentUpdate (data : DocumentUpdate) (now : Nat) (d : Document) :
    Document :=
  { d with
    metadataTags :=
      match data.metadataTags with
      | some tags => some tags
      | none => d.metadataTags,
    updatedAt := now }

/-- `DocumentRepository.update`: drizzle `update … set … where eq(id)
returning` followed by `rows[0] || null`. -/
def DocumentRepository.update (s : DbState) (id : Nat) (data : DocumentUpdate)
    (now : Nat) : Option Document × DbState :=
  let updated := s.documents.map
    (fun d => if d.id == id then applyDocumentUpdate data now d else d)
  (updated.find? (fun d => d.id == id), { s with documents := updated })

/-- `DocumentRepository.delete`: select the row first (`rows[0] || null`);
if absent succeed with `null` and leave the table alone, otherwise delete
the matching rows and return the pre-deletion row. -/
def DocumentRepository.delete (s : DbState) (id : Nat) :
    Option Document × DbState :=
  match s.documents.find? (fun d => d.id == id) with
  | none => (none, s)
  | some doc =>
    (some doc,
     { s with documents := s.documents.filter (fun d => !(d.id == id)) })

/-- The tag-match predicate inside `DocumentRepository.findByTags`:
`searchTags.some(searchTag => docTags.some(docTag => docTag.toLowerCase()
=== searchTag.toLowerCase() || docTag.toLowerCase().includes(searchTag.toLowerCase())))`. -/
def tagMatches (docTags searchTags : List String) : Bool :=
  searchTags.any (fun searchTag =>
    docTags.any (fun docTag =>
      jsToLower docTag == jsToLower searchTag
        || jsIncludes (jsToLower docTag) (jsToLower searchTag)))

/-- `DocumentRepository.findByTags`: select all rows, keep those whose
`metadata_tags` is non-null, parses as a string list, and matches some
query tag; `none` covers both the `!doc.metadataTags` and the
`!parsed.ok` early-false returns of the source filter. -/
def DocumentRepository.findByTags (s : DbState) (searchTags : List String) :
    List Document :=
  s.documents.filter (fun doc =>
    match doc.metadataTags with
    | none => false
    | some docTags => tagMatches docTags searchTags)

/-- `DownloadTokenRepository.findValidToken`: look the token up by its
string; absent → `TokenNotFound`; `expiresAt <= now` → `TokenExpired`;
otherwise return the row (its `usedAt` is NOT checked here). -/
def DownloadTokenRepository.findValidToken (s : DbState) (token : String)
    (now : Nat) : Except RepoError DownloadToken :=
  match s.downloadTokens.find? (fun r => r.token == token) with
  | none => .error (.TokenNotFound token)
  | some tokenRecord =>
    if tokenRecord.expiresAt ≤ now then .error (.TokenExpired token)
    else .ok tokenRecord

/-- `DownloadTokenRepository.markAsUsed`: `update … set({ usedAt: now })
where eq(id)`. -/
def DownloadTokenRepository.markAsUsed (s : DbState) (id : Nat) (now : Nat) :
    DbState :=
  { s with
    downloadTokens := s.downloadTokens.map
      (fun r => if r.id == id then { r with usedAt := some now } else r) }

/-- `DownloadTokenRepository.create`: insert one row (the database-assigned
`id` and `createdAt` are supplied by the caller of the model). -/
def DownloadTokenRepository.create (s : DbState) (record : DownloadToken) :
    DbState :=
  { s with downloadTokens := s.downloadTokens ++ [record] }

/-- Result of a service operation.  `fail` is the typed `ServiceError`
channel; `crash` is an untyped JavaScript exception escaping as an Effect
defect (e.g. a `TypeError` from dereferencing `null`). -/
inductive Outcome (α : Type) where
  | ok (value : α)
  | fail (error : ServiceError)
  | crash (message : String)
  deriving DecidableEq

/-- The document shape the service returns after formatting:
`{ ...document, metadataTags: document.metadataTags ?
JSON.parse(document.metadataTags) : [] }`. -/
structure FormattedDocument where
  id : Nat
  filename : String
  originalFilename : String
  filePath : String
  fileSize : Nat
  metadataTags : List String
  createdAt : Nat
  updatedAt : Nat
  deriving DecidableEq

/-- The service-layer formatting step (null/absent tags become `[]`). -/
def formatDocument (d : Document) : FormattedDocument :=
  { id := d.id, filename := d.filename,
    originalFilename := d.originalFilename, filePath := d.filePath,
    fileSize := d.fileSize, metadataTags := d.metadataTags.getD [],
    createdAt := d.createdAt, updatedAt := d.updatedAt }

/-- `DocumentService.updateDocument` (part_007): build `updateData` with
`metadataTags` only when provided, run the repository update, then format
the returned document.  The source formats `document.metadataTags` without
a null check, so a `null` repository result (id absent) is a `TypeError`
defect, modelled as `crash`. -/
def DocumentService.updateDocument (s : DbState) (id : Nat)
    (metadataTags : Option (List String)) (now : Nat) :
    Outcome FormattedDocument × DbState :=
  let updateData : DocumentUpdate := { metadataTags := metadataTags }
  match DocumentRepository.update s id updateData now with
  | (none, s') =>
    (.crash "TypeError: cannot read properties of null (reading metadataTags)",
     s')
  | (some document, s') => (.ok (formatDocument document), s')

/-- `DocumentService.deleteDocument` (part_007): `findById`, then
best-effort `FileUtils.deleteFileFromDisk` whose outcome — success or
failure, per the `fileDeleteSucceeds` oracle — is swallowed by
`Effect.catchAll` (warn and continue), then `DocumentRepository.delete`,
returning the pre-deletion snapshot.  A `null` `findById` result is
dereferenced (`document.filePath`) without a check: `crash`. -/
def DocumentService.deleteDocument (s : DbState) (id : Nat)
    (fileDeleteSucceeds : Bool) : Outcome Document × DbState :=
  match DocumentRepository.findById s id with
  | none =>
    (.crash "TypeError: cannot read properties of null (reading filePath)", s)
  | some document =>
    let fileDeleteResult : Except String Unit :=
      if fileDeleteSucceeds then .ok () else .error "file deletion failed"
    match fileDeleteResult with
    | _ =>
      match DocumentRepository.delete s id with
      | (_, s') => (.ok document, s')

/-- Result shape of `generateDownloadLink`.  The declared TS type says
`document: Document`, but the value actually stored is `findById`'s
`Document | null` — the source never checks it — so the field is an
`Option` here. -/
structure DownloadLinkResult where
  token : String
  expiresAt : Nat
  downloadUrl : String
  document : Option Document
  deriving DecidableEq

/-- `DocumentService.generateDownloadLink` (part_007): `findById` (whose
`null` result is not checked), compute `expiresAt = now + expiryMinutes`
(time modelled in minutes), insert the token row, and return the link
payload.  `freshToken` models `generateDownloadToken()`'s random string and
`freshId` the database-assigned row id. -/
def DocumentService.generateDownloadLink (s : DbState) (documentId : Nat)
    (now expiryMinutes freshId : Nat) (freshToken : String) :
    Outcome DownloadLinkResult × DbState :=
  let document := DocumentRepository.findById s documentId
  let expiresAt := now + expiryMinutes
  let record : DownloadToken :=
    { id := freshId, token := freshToken, documentId := documentId,
      expiresAt := expiresAt, createdAt := now, usedAt := none }
  let s' := DownloadTokenRepository.create s record
  (.ok { token := freshToken, expiresAt := expiresAt,
         downloadUrl := "/documents/download/" ++ freshToken,
         document := document }, s')

/-- Result shape of `downloadDocumentByToken`. -/
structure DownloadResult where
  document : Document
  filePath : String
  deriving DecidableEq

/-- `DocumentService.downloadDocumentByToken` (part_007):
`findValidToken` (errors mapped through `mapRepoErrorToServiceError`), then
the domain re-validation of `usedAt` (`DownloadTokenAlreadyUsed`), then
`findById` on the owning document — whose `null` result is dereferenced
without a check (`crash`) — then `checkFileExists` (failure mapped to
`FileNotFound`), then best-effort `markAsUsed` whose failure (per the
`markUsedSucceeds` oracle) is swallowed by `Effect.catchAll`. -/
def DocumentService.downloadDocumentByToken (s : DbState) (token : String)
    (now : Nat) (fileExists : String → Bool) (markUsedSucceeds : Bool) :
    Outcome DownloadResult × DbState :=
  match DownloadTokenRepository.findValidToken s token now with
  | .error repoError =>
    (.fail (mapRepoErrorToServiceError repoError "downloadDocumentByToken"), s)
  | .ok downloadToken =>
    match downloadToken.usedAt with
    | some _ => (.fail (.DownloadTokenAlreadyUsed token), s)
    | none =>
      match DocumentRepository.findById s downloadToken.documentId with
      | none =>
        (.crash "TypeError: cannot read properties of null (reading filePath)",
         s)
      | some document =>
        if fileExists document.filePath then
          let s' :=
            if markUsedSucceeds then
              DownloadTokenRepository.markAsUsed s downloadToken.id now
            else s
          (.ok { document := document, filePath := document.filePath }, s')
        else
          (.fail (.FileNotFound document.filePath), s)

/-- Application configuration (`config/app.ts`); `maxFileSize` is the
hard-coded `10 * 1024 * 1024` bytes. -/
structure AppConfig where
  uploadPath : String
  maxFileSize : Nat
  downloadLinkExpiryMinutes : Nat
  deriving DecidableEq

/-- The shipped configuration object. -/
def config : AppConfig :=
  { uploadPath := "./uploads", maxFileSize := 10 * 1024 * 1024,
    downloadLinkExpiryMinutes := 15 }

/-- An uploaded Web `File` as the service sees it; `mimeType` models the
`type` property. -/
structure JsFile where
  name : String
  mimeType : String
  size : Nat
  deriving DecidableEq

/-- `FileUtils.validateFile` (part_018): reject non-PDF mime types, then
sizes strictly above `config.maxFileSize`; the size message interpolates
`config.maxFileSize / 1024 / 1024` (exact for the shipped 10 MiB config,
where JS float division and `Nat` division agree). -/
def FileUtils.validateFile (cfg : AppConfig) (file : JsFile) :
    Except String JsFile :=
  if file.mimeType ≠ "application/pdf" then
    .error "Only PDF files are allowed"
  else if file.size > cfg.maxFileSize then
    .error ("File size exceeds maximum allowed size of "
      ++ toString (cfg.maxFileSize / 1024 / 1024) ++ "MB")
  else
    .ok file

/-- The `Effect.mapError` stage of `createDocument` that converts a
`validateFile` error message into a `ServiceError`, including the
`parseInt(match[0])` recovery of `maxSize` from the first digit run of the
message text. -/
def DocumentService.mapCreateValidationError (file : JsFile)
    (errMessage : String) : ServiceError :=
  let message := jsToLower errMessage
  if jsIncludes message "only pdf" || jsIncludes message "pdf" then
    .InvalidFileType errMessage
  else if jsIncludes message "size" || jsIncludes message "exceeds" then
    .FileTooLarge ((firstNumber errMessage).getD 0) file.size
  else
    .ServiceUnknown "createDocument" errMessage

/-- `DocumentService.createDocument` (part_007): validate, map validation
errors to domain errors, then (directory / path / disk steps modelled as
succeeding — their failure paths map to `ServiceUnavailable` and no claim
exercises them) persist the metadata row with
`metadataTags: JSON.stringify(metadataTags || [])`.  `pathData` is
`generateFilePath`'s `(filePath, filename)` pair; `freshId` the
database-assigned row id. -/
def DocumentService.createDocument (cfg : AppConfig) (s : DbState)
    (file : JsFile) (metadataTags : Option (List String))
    (pathData : String × String) (now freshId : Nat) :
    Outcome Document × DbState :=
  match FileUtils.validateFile cfg file with
  | .error errMessage =>
    (.fail (DocumentService.mapCreateValidationError file errMessage), s)
  | .ok validatedFile =>
    let newDoc : Document :=
      { id := freshId, filename := pathData.2,
        originalFilename := validatedFile.name, filePath := pathData.1,
        fileSize := validatedFile.size,
        metadataTags := some (metadataTags.getD []),
        createdAt := now, updatedAt := now }
    (.ok newDoc, { s with documents := s.documents ++ [newDoc] })

/-- `ValidationUtils.validateSearchTags` (part_016): at least one tag. -/
def ValidationUtils.validateSearchTags (searchTags : List String) :
    Except String (List String) :=
  if searchTags.isEmpty then
    .error "At least one tag is required for search"
  else
    .ok searchTags

/-- `DocumentService.searchDocumentsByTags` (part_007): validate, search by
tags, format the results. -/
def DocumentService.searchDocumentsByTags (s : DbState)
    (searchTags : List String) : Outcome (List FormattedDocument) × DbState :=
  match ValidationUtils.validateSearchTags searchTags with
  | .error msg => (.fail (.InvalidSearchTags msg), s)
  | .ok validatedTags =>
    (.ok ((DocumentRepository.findByTags s validatedTags).map formatDocument),
     s)

/-- A token row for a document id (7) that has no document row: the state
left behind by deleting a document after issuing a token for it (the
schema has no foreign key, so the token row survives the deletion). -/
def orphanToken : DownloadToken :=
  { id := 1, token := "tok", documentId := 7, expiresAt := 100,
    createdAt := 0, usedAt := none }

/-- The database state holding only `orphanToken`. -/
def orphanState : DbState :=
  { documents := [], downloadTokens := [orphanToken] }

/-- The empty database state. -/
def emptyState : DbState := { documents := [], downloadTokens := [] }

/-- A stored document used to exercise the update operation. -/
def sampleDoc : Document :=
  { id := 1, filename := "a.pdf", originalFilename := "orig.pdf",
    filePath := "uploads/a.pdf", fileSize := 3,
    metadataTags := some ["invoice"], createdAt := 2, updatedAt := 5 }

/-- A state holding only `sampleDoc`. -/
def sampleState : DbState := { documents := [sampleDoc], downloadTokens := [] }

/-- The document a live download token points at. -/
def tokenDoc : Document :=
  { id := 7, filename := "b.pdf", originalFilename := "orig-b.pdf",
    filePath := "uploads/b.pdf", fileSize := 4,
    metadataTags := some [], createdAt := 0, updatedAt := 0 }

/-- An issued, unused token for `tokenDoc`, expiring at instant 100. -/
def liveToken : DownloadToken :=
  { id := 1, token := "tok", documentId := 7, expiresAt := 100,
    createdAt := 0, usedAt := none }

/-- A state holding `tokenDoc` and `liveToken`. -/
def liveState : DbState :=
  { documents := [tokenDoc], downloadTokens := [liveToken] }

/-- A stored document tagged `["report","monthly"]`. -/
def reportDoc : Document :=
  { id := 2, filename := "r.pdf", originalFilename := "orig-r.pdf",
    filePath := "uploads/r.pdf", fileSize := 9,
    metadataTags := some ["report", "monthly"], createdAt := 1,
    updatedAt := 1 }

/-- A state holding only `reportDoc`. -/
def reportState : DbState := { documents := [reportDoc], downloadTokens := [] }

example : jsIncludes "file size exceeds maximum" "size" = true := by decide

example : jsIncludes "Service temporarily unavailable" "createDocument" = false := by
  decide

example : firstNumber "File size exceeds maximum allowed size of 10MB" = some 10 := by
  decide

example : jsToLower "Timed OUT" = "timed out" := by decide

/-- C1: `mapRepoErrorToServiceError` is a total function (hence
deterministic) and sends each `RepoError` variant exactly where the spec's
table says: `TokenNotFound` to `DownloadTokenInvalid`, `TokenExpired` to
`DownloadTokenExpired`, the connection/timeout variants to
`ServiceUnavailable operation`, and the constraint/unknown variants to
`ServiceUnknown operation message`, preserving the message. -/
theorem C1_mapRepoErrorToServiceError_follows_table :
    ∀ (token message constraint operation : String),
      mapRepoErrorToServiceError (.TokenNotFound token) operation
          = .DownloadTokenInvalid token
        ∧ mapRepoErrorToServiceError (.TokenExpired token) operation
          = .DownloadTokenExpired token
        ∧ mapRepoErrorToServiceError (.DbConnectionError message) operation
          = .ServiceUnavailable operation
        ∧ mapRepoErrorToServiceError (.DbTimeoutError message) operation
          = .ServiceUnavailable operation
        ∧ mapRepoErrorToServiceError (.DbConstraintViolation constraint message)
            operation = .ServiceUnknown operation message
        ∧ mapRepoErrorToServiceError (.DbUnknown message) operation
          = .ServiceUnknown operation message := by
  intro token message constraint operation
  exact ⟨rfl, rfl, rfl, rfl, rfl, rfl⟩

/-- C2: the `ServiceError` → `HttpError` → status pipeline is total (a Lean
function on the closed variant set) and follows the spec's tables: the four
not-found-ish domain errors render `NotFound`/404, the three invalid-input
errors render `BadRequest`/400, `DownloadTokenAlreadyUsed` renders
`Conflict`/409, `ServiceUnavailable` renders `Unavailable`/503 with a fixed
generic message containing none of the service's operation names, and
`ServiceUnknown` renders `InternalServerError`/500 carrying the original
message; the `HttpError` → status table is exactly 400/404/409/503/500. -/
theorem C2_serviceError_to_http_follows_tables :
    ∀ (documentId maxSize actualSize : Nat)
      (filePath message operation token : String),
      mapServiceErrorToHttpError (.DocumentNotFound documentId)
          = .NotFound s!"Document with ID {documentId} not found"
        ∧ mapServiceErrorToHttpError (.FileNotFound filePath)
          = .NotFound s!"File not found: {filePath}"
        ∧ mapServiceErrorToHttpError (.DownloadTokenExpired token)
          = .NotFound "Download token has expired"
        ∧ mapServiceErrorToHttpError (.DownloadTokenInvalid token)
          = .NotFound "Invalid download token"
        ∧ mapServiceErrorToHttpError (.InvalidFileType message)
          = .BadRequest message
        ∧ mapServiceErrorToHttpError (.FileTooLarge maxSize actualSize)
          = .BadRequest s!"File size {actualSize} exceeds maximum {maxSize}"
        ∧ mapServiceErrorToHttpError (.InvalidSearchTags message)
          = .BadRequest message
        ∧ mapServiceErrorToHttpError (.DownloadTokenAlreadyUsed token)
          = .Conflict "Download token has already been used"
        ∧ mapServiceErrorToHttpError (.ServiceUnavailable operation)
          = .Unavailable "Service temporarily unavailable"
        ∧ (serviceOperations.all
            (fun op => !(jsIncludes "Service temporarily unavailable" op)))
          = true
        ∧ mapServiceErrorToHttpError (.ServiceUnknown operation message)
          = .InternalServerError message
        ∧ httpErrorToStatus (.BadRequest message) = 400
        ∧ httpErrorToStatus (.NotFound message) = 404
        ∧ httpErrorToStatus (.Conflict message) = 409
        ∧ httpErrorToStatus (.Unavailable message) = 503
        ∧ httpErrorToStatus (.InternalServerError message) = 500 := by
  intro documentId maxSize actualSize filePath message operation token
  exact ⟨rfl, rfl, rfl, rfl, rfl, rfl, rfl, rfl, rfl, by decide, rfl, rfl,
    rfl, rfl, rfl, rfl⟩

/-- C10: `toRepoError` classifies every raw failure value (Error instance
or not) into one of the four infrastructure variants — never `TokenNotFound`
or `TokenExpired` — and therefore its composition with
`mapRepoErrorToServiceError` never yields the token-validity errors
`DownloadTokenInvalid` / `DownloadTokenExpired`. -/
theorem C10_toRepoError_never_token_variant :
    ∀ (raw : RawError) (operation : String),
      (toRepoError raw).isDbVariant = true
        ∧ (mapRepoErrorToServiceError (toRepoError raw) operation).isTokenValidityError
          = false := by
  intro raw operation
  refine ⟨?_, ?_⟩ <;>
    cases raw with
    | jsError m =>
      simp only [toRepoError]
      repeat' split
      all_goals rfl
    | nonError s => rfl

/-- `find?` over a mapped list, when the map preserves the predicate:
the search commutes with the map. -/
theorem find?_map_pres {α : Type} (f : α → α) (p : α → Bool)
    (hp : ∀ x, p (f x) = p x) :
    ∀ l : List α, (l.map f).find? p = (l.find? p).map f := by
  intro l
  induction l with
  | nil => rfl
  | cons a t ih =>
    simp only [List.map, List.find?]
    rw [hp a]
    cases h : p a <;> simp [ih]

/-- C4 (code-bug evidence): a valid, unused, unexpired token whose owning
document row has been deleted makes `downloadDocumentByToken` dereference
the `null` result of `DocumentRepository.findById` (the source never checks
it, and `mapRepoErrorToServiceError` cannot produce `DocumentNotFound`), so
the call dies with an untyped `TypeError` defect instead of failing with
the domain error `DocumentNotFound`. -/
theorem C4_consume_with_deleted_document_crashes :
    DocumentService.downloadDocumentByToken orphanState "tok" 0
        (fun _ => true) true
      = (.crash "TypeError: cannot read properties of null (reading filePath)",
         orphanState) := by
  decide

/-- C5 (code-bug evidence): `generateDownloadLink` for a `documentId` with
no document row does not fail — `findById`'s `null` is never checked — and
it persists a token row anyway, returning `document: null` in the payload:
an orphaned token, the opposite of the claimed behavior. -/
theorem C5_issue_for_missing_document_persists_orphan_token :
    DocumentService.generateDownloadLink emptyState 1 0 15 1 "tok"
      = (.ok { token := "tok", expiresAt := 15,
               downloadUrl := "/documents/download/tok", document := none },
         { documents := [],
           downloadTokens := [{ id := 1, token := "tok", documentId := 1,
                                expiresAt := 15, createdAt := 0,
                                usedAt := none }] }) := by
  decide

/-- C7 (code-bug evidence): an `application/pdf` upload one byte over the
10-MiB limit fails with `FileTooLarge 10 10485761` — the `maxSize` field is
`parseInt` of the first number in the validation message, i.e. the limit in
megabytes (`maxFileSize / 1024 / 1024 = 10`), not the configured byte limit
`10485760` — rendered `BadRequest`/400 with the unit-mismatched message
`File size 10485761 exceeds maximum 10`; `actualSize` is correct. -/
theorem C7_fileTooLarge_reports_megabytes_not_bytes :
    DocumentService.createDocument config
        { documents := [], downloadTokens := [] }
        { name := "big.pdf", mimeType := "application/pdf", size := 10485761 }
        none ("uploads/f.pdf", "f.pdf") 0 1
      = (.fail (.FileTooLarge 10 10485761),
         { documents := [], downloadTokens := [] })
    ∧ config.maxFileSize = 10485760
    ∧ mapServiceErrorToHttpError (.FileTooLarge 10 10485761)
      = .BadRequest "File size 10485761 exceeds maximum 10"
    ∧ httpErrorToStatus
        (mapServiceErrorToHttpError (.FileTooLarge 10 10485761)) = 400 := by
  exact ⟨by decide, rfl, rfl, rfl⟩

/-- C6 counterexample: updating `sampleDoc` (stored `updatedAt = 5`) with
the tags argument omitted does not leave the stored record unchanged — the
repository's `set({ ...data, updatedAt: now })` always bumps `updatedAt`
(here to 10) even when `updateData` is empty. -/
theorem C6_counterexample_tags_omitted_still_bumps_updatedAt :
    (DocumentService.updateDocument sampleState 1 none 10).2 ≠ sampleState
      ∧ (DocumentService.updateDocument sampleState 1 none 10).2.documents.map
          Document.updatedAt = [10]
      ∧ sampleDoc.updatedAt = 5 := by
  decide

/-- C6 amended: for every existing document, update with tags omitted
leaves the stored tags — and every other field except `updatedAt` —
unchanged but still bumps `updatedAt` to the current instant, exactly as
update with an explicit empty tag list does, which additionally clears the
tags; in both cases filename, originalFilename, filePath, fileSize and
createdAt are untouched. -/
theorem C6_update_tags_frame_amended :
    ∀ (s : DbState) (id now : Nat) (d : Document),
      s.documents.find? (fun x => x.id == id) = some d →
      DocumentService.updateDocument s id none now
          = (.ok (formatDocument { d with updatedAt := now }),
             { s with documents := s.documents.map (fun x =>
                 if x.id == id then { x with updatedAt := now } else x) })
        ∧ DocumentService.updateDocument s id (some []) now
          = (.ok (formatDocument { d with metadataTags := some [],
                                          updatedAt := now }),
             { s with documents := s.documents.map (fun x =>
                 if x.id == id then { x with metadataTags := some [],
                                             updatedAt := now } else x) }) := by
  intro s id now d hfind
  have hpres : ∀ (data : DocumentUpdate) (x : Document),
      ((if x.id == id then applyDocumentUpdate data now x else x).id == id)
        = (x.id == id) := by
    intro data x
    cases h : x.id == id <;> simp [h, applyDocumentUpdate]
  have hd : (d.id == id) = true := by simpa using List.find?_some hfind
  constructor
  · simp only [DocumentService.updateDocument, DocumentRepository.update]
    rw [find?_map_pres _ _ (hpres _), hfind]
    simp only [Option.map_some', hd, if_true]
    rfl
  · simp only [DocumentService.updateDocument, DocumentRepository.update]
    rw [find?_map_pres _ _ (hpres _), hfind]
    simp only [Option.map_some', hd, if_true]
    rfl

/-- C6 witness: the amended update semantics evaluated on `sampleState`. -/
theorem C6_update_tags_frame_amended_witness :
    DocumentService.updateDocument sampleState 1 none 10
        = (.ok { id := 1, filename := "a.pdf", originalFilename := "orig.pdf",
                 filePath := "uploads/a.pdf", fileSize := 3,
                 metadataTags := ["invoice"], createdAt := 2,
                 updatedAt := 10 },
           { documents := [{ id := 1, filename := "a.pdf",
                             originalFilename := "orig.pdf",
                             filePath := "uploads/a.pdf", fileSize := 3,
                             metadataTags := some ["invoice"], createdAt := 2,
                             updatedAt := 10 }], downloadTokens := [] })
      ∧ DocumentService.updateDocument sampleState 1 (some []) 10
        = (.ok { id := 1, filename := "a.pdf", originalFilename := "orig.pdf",
                 filePath := "uploads/a.pdf", fileSize := 3,
                 metadataTags := [], createdAt := 2, updatedAt := 10 },
           { documents := [{ id := 1, filename := "a.pdf",
                             originalFilename := "orig.pdf",
                             filePath := "uploads/a.pdf", fileSize := 3,
                             metadataTags := some [], createdAt := 2,
                             updatedAt := 10 }], downloadTokens := [] }) :=
  C6_update_tags_frame_amended sampleState 1 10 sampleDoc (by decide)

/-- The success path of `downloadDocumentByToken`: a stored, unused token
with `now < expiresAt`, an existing owning document and a present backing
file yields the document and its path; the final state is marked-used only
when the mark-used write succeeds. -/
theorem downloadByToken_valid_spec :
    ∀ (s : DbState) (tk : String) (tr : DownloadToken) (doc : Document)
      (t : Nat) (fe : String → Bool) (mark : Bool),
      s.downloadTokens.find? (fun r => r.token == tk) = some tr →
      tr.usedAt = none →
      t < tr.expiresAt →
      s.documents.find? (fun x => x.id == tr.documentId) = some doc →
      fe doc.filePath = true →
      DocumentService.downloadDocumentByToken s tk t fe mark
        = (.ok { document := doc, filePath := doc.filePath },
           if mark then DownloadTokenRepository.markAsUsed s tr.id t else s) := by
  intro s tk tr doc t fe mark hfind hused hexp hdoc hfe
  have hvalid : DownloadTokenRepository.findValidToken s tk t = .ok tr := by
    simp only [DownloadTokenRepository.findValidToken, hfind]
    rw [if_neg (Nat.not_le.mpr hexp)]
  have hid : DocumentRepository.findById s tr.documentId = some doc := hdoc
  simp [DocumentService.downloadDocumentByToken, hvalid, hused, hid, hfe]

/-- C3 counterexample: consume `liveToken` successfully at instant 10, then
again at instant 100 (its `expiresAt`): the second call fails with
`DownloadTokenExpired`, not `DownloadTokenAlreadyUsed`, because
`findValidToken` checks expiry before the service re-validates `usedAt`. -/
theorem C3_counterexample_late_retry_yields_expired_not_used :
    (DocumentService.downloadDocumentByToken
        (DocumentService.downloadDocumentByToken liveState "tok" 10
          (fun _ => true) true).2
        "tok" 100 (fun _ => true) true).1
      = .fail (.DownloadTokenExpired "tok")
    ∧ ServiceError.DownloadTokenExpired "tok"
      ≠ ServiceError.DownloadTokenAlreadyUsed "tok" := by
  decide

/-- C3 amended: for every stored unused token over an existing document
with a present file, the first `Consume` before `expiresAt` succeeds with
the document and its storage path and marks the token used; after that,
every later call is a failure that leaves the state unchanged — it fails
`DownloadTokenAlreadyUsed` when still before `expiresAt`, and
`DownloadTokenExpired` once `expiresAt ≤ now`. -/
theorem C3_sequential_consumption_amended :
    ∀ (s : DbState) (tk : String) (tr : DownloadToken) (doc : Document)
      (t₁ : Nat) (fe : String → Bool),
      s.downloadTokens.find? (fun r => r.token == tk) = some tr →
      tr.usedAt = none →
      t₁ < tr.expiresAt →
      s.documents.find? (fun x => x.id == tr.documentId) = some doc →
      fe doc.filePath = true →
      DocumentService.downloadDocumentByToken s tk t₁ fe true
          = (.ok { document := doc, filePath := doc.filePath },
             DownloadTokenRepository.markAsUsed s tr.id t₁)
        ∧ ∀ t₂ : Nat,
            DocumentService.downloadDocumentByToken
                (DownloadTokenRepository.markAsUsed s tr.id t₁) tk t₂ fe true
              = (.fail (if tr.expiresAt ≤ t₂ then .DownloadTokenExpired tk
                        else .DownloadTokenAlreadyUsed tk),
                 DownloadTokenRepository.markAsUsed s tr.id t₁) := by
  intro s tk tr doc t₁ fe hfind hused hexp hdoc hfe
  constructor
  · simpa using
      downloadByToken_valid_spec s tk tr doc t₁ fe true hfind hused hexp hdoc
        hfe
  · intro t₂
    have hfind' : (DownloadTokenRepository.markAsUsed s tr.id t₁).downloadTokens.find?
        (fun r => r.token == tk) = some { tr with usedAt := some t₁ } := by
      have hp : ∀ r : DownloadToken,
          (((if r.id == tr.id then { r with usedAt := some t₁ } else r) :
              DownloadToken).token == tk) = (r.token == tk) := by
        intro r
        cases h : r.id == tr.id <;> simp [h]
      simp only [DownloadTokenRepository.markAsUsed]
      rw [find?_map_pres _ _ hp, hfind]
      simp
    by_cases h2 : tr.expiresAt ≤ t₂
    · have hvalid : DownloadTokenRepository.findValidToken
          (DownloadTokenRepository.markAsUsed s tr.id t₁) tk t₂
          = .error (.TokenExpired tk) := by
        simp only [DownloadTokenRepository.findValidToken, hfind']
        rw [if_pos h2]
      simp [DocumentService.downloadDocumentByToken, hvalid, h2,
            mapRepoErrorToServiceError]
    · have hvalid : DownloadTokenRepository.findValidToken
          (DownloadTokenRepository.markAsUsed s tr.id t₁) tk t₂
          = .ok { tr with usedAt := some t₁ } := by
        simp only [DownloadTokenRepository.findValidToken, hfind']
        rw [if_neg h2]
      simp [DocumentService.downloadDocumentByToken, hvalid, h2]

/-- C3 witness: the amended sequential-consumption semantics evaluated on
`liveState`: success at instant 10, `DownloadTokenAlreadyUsed` on the retry
at instant 50 (before expiry), `DownloadTokenExpired` on the retry at
instant 100. -/
theorem C3_sequential_consumption_amended_witness :
    DocumentService.downloadDocumentByToken liveState "tok" 10
        (fun _ => true) true
      = (.ok { document := tokenDoc, filePath := "uploads/b.pdf" },
         DownloadTokenRepository.markAsUsed liveState 1 10)
    ∧ DocumentService.downloadDocumentByToken
          (DownloadTokenRepository.markAsUsed liveState 1 10) "tok" 50
          (fun _ => true) true
        = (.fail (.DownloadTokenAlreadyUsed "tok"),
           DownloadTokenRepository.markAsUsed liveState 1 10)
    ∧ DocumentService.downloadDocumentByToken
          (DownloadTokenRepository.markAsUsed liveState 1 10) "tok" 100
          (fun _ => true) true
        = (.fail (.DownloadTokenExpired "tok"),
           DownloadTokenRepository.markAsUsed liveState 1 10) := by
  have h := C3_sequential_consumption_amended liveState "tok" liveToken
    tokenDoc 10 (fun _ => true) (by decide) (by decide) (by decide)
    (by decide) (by decide)
  exact ⟨h.1, h.2 50, h.2 100⟩

/-- C9: failure of a secondary bookkeeping effect never changes the primary
outcome.  (a) For every existing document, `deleteDocument` returns the
pre-deletion snapshot and removes the metadata record whether the
file-removal step succeeds or fails (the flag is swallowed by
`Effect.catchAll`, covering the file-already-absent case).  (b) For every
stored unused unexpired token over an existing document with a present
file, `downloadDocumentByToken` with a failing mark-used write still
reports success with the document and its storage path, leaving the state
unchanged. -/
theorem C9_secondary_effect_failure_preserves_outcome :
    (∀ (s : DbState) (id : Nat) (d : Document) (fileDeleteSucceeds : Bool),
        DocumentRepository.findById s id = some d →
        DocumentService.deleteDocument s id fileDeleteSucceeds
          = (.ok d,
             { s with documents :=
                 s.documents.filter (fun x => !(x.id == id)) }))
      ∧ (∀ (s : DbState) (tk : String) (tr : DownloadToken) (doc : Document)
            (t : Nat) (fe : String → Bool),
          s.downloadTokens.find? (fun r => r.token == tk) = some tr →
          tr.usedAt = none →
          t < tr.expiresAt →
          s.documents.find? (fun x => x.id == tr.documentId) = some doc →
          fe doc.filePath = true →
          DocumentService.downloadDocumentByToken s tk t fe false
            = (.ok { document := doc, filePath := doc.filePath }, s)) := by
  constructor
  · intro s id d b hfind
    have hfind' : s.documents.find? (fun x => x.id == id) = some d := hfind
    simp [DocumentService.deleteDocument, DocumentRepository.findById,
          DocumentRepository.delete, hfind']
  · intro s tk tr doc t fe hfind hused hexp hdoc hfe
    simpa using
      downloadByToken_valid_spec s tk tr doc t fe false hfind hused hexp hdoc
        hfe

/-- C9 witness: deleting `sampleDoc` with a failing file removal still
succeeds and empties the table; consuming `liveToken` with a failing
mark-used write still succeeds and leaves the state untouched. -/
theorem C9_secondary_effect_failure_preserves_outcome_witness :
    DocumentService.deleteDocument sampleState 1 false
        = (.ok sampleDoc, { documents := [], downloadTokens := [] })
      ∧ DocumentService.downloadDocumentByToken liveState "tok" 10
          (fun _ => true) false
        = (.ok { document := tokenDoc, filePath := "uploads/b.pdf" },
           liveState) := by
  have h := C9_secondary_effect_failure_preserves_outcome
  exact ⟨h.1 sampleState 1 sampleDoc false (by decide),
         h.2 liveState "tok" liveToken tokenDoc 10 (fun _ => true) (by decide)
           (by decide) (by decide) (by decide) (by decide)⟩

/-- C8: for every query and stored document, `findByTags` includes the
document iff some stored tag of the document, lowercased, equals or
contains as a substring some lowercased query tag (OR semantics across
query tags; a document whose `metadata_tags` is null or unparseable has no
stored tags and never matches); in particular `["INV"]` matches the
document tagged `["invoice"]` and `["2024"]` does not match the document
tagged `["report","monthly"]`. -/
theorem C8_findByTags_matching_policy :
    (∀ (query : List String) (s : DbState) (d : Document),
        query ≠ [] →
        (d ∈ DocumentRepository.findByTags s query ↔
          d ∈ s.documents ∧
            ∃ docTag ∈ d.metadataTags.getD [], ∃ q ∈ query,
              jsToLower docTag = jsToLower q
                ∨ jsIncludes (jsToLower docTag) (jsToLower q) = true))
      ∧ DocumentRepository.findByTags sampleState ["INV"]
        = sampleState.documents
      ∧ DocumentRepository.findByTags reportState ["2024"] = [] := by
  refine ⟨?_, by decide, by decide⟩
  intro query s d _
  simp only [DocumentRepository.findByTags, List.mem_filter]
  refine and_congr_right fun _ => ?_
  cases hm : d.metadataTags with
  | none => simp
  | some ts =>
    simp only [tagMatches, List.any_eq_true, Bool.or_eq_true, beq_iff_eq,
               Option.getD_some]
    constructor
    · rintro ⟨q, hq, t, ht, h⟩
      exact ⟨t, ht, q, hq, h⟩
    · rintro ⟨t, ht, q, hq, h⟩
      exact ⟨q, hq, t, ht, h⟩

/-- C8 witness: the matching policy instantiated on `sampleState` with the
non-empty query `["INV"]`. -/
theorem C8_findByTags_matching_policy_witness :
    sampleDoc ∈ DocumentRepository.findByTags sampleState ["INV"] ↔
      sampleDoc ∈ sampleState.documents ∧
        ∃ docTag ∈ sampleDoc.metadataTags.getD [], ∃ q ∈ ["INV"],
          jsToLower docTag = jsToLower q
            ∨ jsIncludes (jsToLower docTag) (jsToLower q) = true :=
  C8_findByTags_matching_policy.1 ["INV"] sampleState sampleDoc (by decide)
